import Mathlib

/-
Verification of the course-catalog application (two variants: app.py and
tempCodeRunnerFile.py).  The backing store is a single JSON file holding an
array of course objects; the service layer offers list, lookup-by-code and
validated add.  The embedding below models the file contents as either
absent, malformed (present but not valid JSON), or a parsed array of course
records; handlers pass the store state explicitly and raise through Except.
Tracing, logging and metrics calls are part of the excluded observability
layer and have no effect on the store or on the returned data, so they are
omitted from the embedding.
-/

/-- Python truthiness test used by the handlers on results of
request.form.get: `not x` is True exactly when the key is absent (None)
or maps to the empty string. -/
def falsy : Option String → Bool
  | none => true
  | some s => s == ""

/-- An HTTP form submission: each named field of the add-course form is
either absent (the key is missing) or a string.  The key for the course
code is course-code, for the name courseName; the description key is
spelled Description (capitalised) in app.py. -/
structure Form where
  course_code : Option String := none
  courseName : Option String := none
  instructor : Option String := none
  semester : Option String := none
  schedule : Option String := none
  classroom : Option String := none
  prerequisites : Option String := none
  grading : Option String := none
  Description : Option String := none
deriving Repr, DecidableEq

/-- The exception raised by json.load on malformed input
(json.JSONDecodeError); the source never catches it. -/
inductive PyError where
  | jsonDecodeError
deriving Repr, DecidableEq

namespace App

/-- A course record as built by add_courses in app.py (lines 194-204):
the three validated fields hold strings, the rest hold the raw
request.form.get results, which may be None. -/
structure Course where
  code : String
  name : String
  instructor : String
  semester : Option String
  schedule : Option String
  classroom : Option String
  prerequisites : Option String
  grading : Option String
  Description : Option String
deriving Repr, DecidableEq

/-- State of the backing file course_catalog.json: missing, present but not
valid JSON, or a valid JSON array of course objects. -/
inductive FileContent where
  | absent
  | malformed
  | json (courses : List Course)
deriving Repr, DecidableEq

/-- load_courses (app.py lines 93-98): empty list when the file does not
exist, otherwise json.load, whose parse failure on malformed contents
propagates uncaught. -/
def load_courses : FileContent → Except PyError (List Course)
  | .absent => .ok []
  | .malformed => .error .jsonDecodeError
  | .json courses => .ok courses

/-- save_courses (app.py lines 100-105): load the existing courses, append
the new record, write the whole array back. -/
def save_courses (data : Course) (fs : FileContent) : Except PyError FileContent :=
  match load_courses fs with
  | .error e => .error e
  | .ok courses => .ok (.json (courses ++ [data]))

/-- The course dictionary built by the POST branch of add_courses
(app.py lines 194-204).  The three required fields are guarded by the
validation check, so the getD default is never taken on the path where
this record is stored. -/
def mk_course (f : Form) : Course :=
  { code := f.course_code.getD ""
    name := f.courseName.getD ""
    instructor := f.instructor.getD ""
    semester := f.semester
    schedule := f.schedule
    classroom := f.classroom
    prerequisites := f.prerequisites
    grading := f.grading
    Description := f.Description }

/-- The missing_fields list assembled on the validation-failure branch
(app.py lines 172-178): display labels appended in the fixed order
Course Code, Course Name, Instructor. -/
def missing_of (f : Form) : List String :=
  (if falsy f.course_code then ["Course Code"] else []) ++
  (if falsy f.courseName then ["Course Name"] else []) ++
  (if falsy f.instructor then ["Instructor"] else [])

/-- Outcome of the add_courses POST handler, abstracting the flash
message and redirect of the rendering layer. -/
inductive AddResult where
  | validationError (missing_fields : List String)
  | added (course : Course)
deriving Repr, DecidableEq

/-- The POST branch of add_courses (app.py lines 159-221): validate the
three required fields, on failure flash the missing labels and leave the
store untouched; on success build the course record and persist it via
save_courses. -/
def add_courses_post (f : Form) (fs : FileContent) :
    Except PyError (FileContent × AddResult) :=
  if falsy f.course_code || falsy f.courseName || falsy f.instructor then
    .ok (fs, .validationError (missing_of f))
  else
    match save_courses (mk_course f) fs with
    | .error e => .error e
    | .ok fs' => .ok (fs', .added (mk_course f))

/-- course_catalog (app.py lines 125-144): loads all courses and renders
them; the returned pair carries the (unchanged) store state and the
course list handed to the template. -/
def course_catalog (fs : FileContent) : Except PyError (FileContent × List Course) :=
  match load_courses fs with
  | .error e => .error e
  | .ok courses => .ok (fs, courses)

/-- Outcome of the course_details handler: the details page for the
matched course, or the flash-and-redirect not-found path. -/
inductive DetailsResult where
  | found (course : Course)
  | notFound
deriving Repr, DecidableEq

/-- course_details (app.py lines 223-251): linear scan of the loaded
courses for the first one whose code field equals the path parameter
(next with default None), redirecting with an error flash when none
matches. -/
def course_details (code : String) (fs : FileContent) :
    Except PyError (FileContent × DetailsResult) :=
  match load_courses fs with
  | .error e => .error e
  | .ok courses =>
    match courses.find? (fun course => course.code == code) with
    | none => .ok (fs, .notFound)
    | some course => .ok (fs, .found course)

end App

namespace Temp

/-- A course record as built by add_courses in tempCodeRunnerFile.py
(lines 104-113); this variant stores no description field. -/
structure Course where
  code : String
  name : String
  instructor : String
  semester : Option String
  schedule : Option String
  classroom : Option String
  prerequisites : Option String
  grading : Option String
deriving Repr, DecidableEq

/-- State of the backing file for the tempCodeRunnerFile.py variant. -/
inductive FileContent where
  | absent
  | malformed
  | json (courses : List Course)
deriving Repr, DecidableEq

/-- load_courses (tempCodeRunnerFile.py lines 16-21), textually identical
to the app.py variant. -/
def load_courses : FileContent → Except PyError (List Course)
  | .absent => .ok []
  | .malformed => .error .jsonDecodeError
  | .json courses => .ok courses

/-- save_courses (tempCodeRunnerFile.py lines 24-29), textually identical
to the app.py variant. -/
def save_courses (data : Course) (fs : FileContent) : Except PyError FileContent :=
  match load_courses fs with
  | .error e => .error e
  | .ok courses => .ok (.json (courses ++ [data]))

/-- The zero-padded decimal of the Python format spec 03d: pad with
leading zeros to a minimum width of three digits. -/
def format03d (n : Nat) : String :=
  let s := toString n
  if s.length < 3 then String.mk (List.replicate (3 - s.length) '0') ++ s else s

/-- The server-generated course code C{n+1:03d} where n is the current
catalog length (tempCodeRunnerFile.py lines 100-101). -/
def gen_code (n : Nat) : String :=
  "C" ++ format03d (n + 1)

/-- The course dictionary built by the POST branch of add_courses
(tempCodeRunnerFile.py lines 104-113), with the generated code. -/
def mk_course (code : String) (f : Form) : Course :=
  { code := code
    name := f.courseName.getD ""
    instructor := f.instructor.getD ""
    semester := f.semester
    schedule := f.schedule
    classroom := f.classroom
    prerequisites := f.prerequisites
    grading := f.grading }

/-- Outcome of the add_courses POST handler of this variant. -/
inductive AddResult where
  | validationError (missing_fields : List String)
  | added (course : Course)
deriving Repr, DecidableEq

/-- The POST branch of add_courses (tempCodeRunnerFile.py lines 64-121):
only courseName and instructor are validated; the course code is
generated from the current catalog length and the record persisted via
save_courses. -/
def add_courses_post (f : Form) (fs : FileContent) :
    Except PyError (FileContent × AddResult) :=
  if falsy f.courseName || falsy f.instructor then
    .ok (fs, .validationError
      ((if falsy f.courseName then ["Course Name"] else []) ++
       (if falsy f.instructor then ["Instructor"] else [])))
  else
    match load_courses fs with
    | .error e => .error e
    | .ok courses =>
      match save_courses (mk_course (gen_code courses.length) f) fs with
      | .error e => .error e
      | .ok fs' => .ok (fs', .added (mk_course (gen_code courses.length) f))

/-- course_catalog (tempCodeRunnerFile.py lines 37-46). -/
def course_catalog (fs : FileContent) : Except PyError (FileContent × List Course) :=
  match load_courses fs with
  | .error e => .error e
  | .ok courses => .ok (fs, courses)

/-- Outcome of the course_details handler of this variant. -/
inductive DetailsResult where
  | found (course : Course)
  | notFound
deriving Repr, DecidableEq

/-- course_details (tempCodeRunnerFile.py lines 123-140). -/
def course_details (code : String) (fs : FileContent) :
    Except PyError (FileContent × DetailsResult) :=
  match load_courses fs with
  | .error e => .error e
  | .ok courses =>
    match courses.find? (fun course => course.code == code) with
    | none => .ok (fs, .notFound)
    | some course => .ok (fs, .found course)

end Temp

/-- The P2 round-trip form: code C001, name Intro, instructor A. Smith,
no optional fields supplied. -/
def formC001 : Form :=
  { course_code := some "C001", courseName := some "Intro",
    instructor := some "A. Smith" }

/-- The course record produced from formC001. -/
def courseC001 : App.Course := App.mk_course formC001

/-- The P3 ordering scenario: three forms with codes C001, C002, C003. -/
def form1 : Form :=
  { course_code := some "C001", courseName := some "Algorithms",
    instructor := some "Knuth" }

/-- Second form of the P3 ordering scenario. -/
def form2 : Form :=
  { course_code := some "C002", courseName := some "Compilers",
    instructor := some "Aho" }

/-- Third form of the P3 ordering scenario. -/
def form3 : Form :=
  { course_code := some "C003", courseName := some "Databases",
    instructor := some "Codd" }

/-- The catalog produced by the three sequential adds of the P3 scenario
starting from an absent backing file, read back via course_catalog. -/
def catalog_after_three : Except PyError (List App.Course) :=
  match App.add_courses_post form1 .absent with
  | .error e => .error e
  | .ok (fs1, _) =>
    match App.add_courses_post form2 fs1 with
    | .error e => .error e
    | .ok (fs2, _) =>
      match App.add_courses_post form3 fs2 with
      | .error e => .error e
      | .ok (fs3, _) =>
        match App.course_catalog fs3 with
        | .error e => .error e
        | .ok (_, courses) => .ok courses

/-- A form supplying a non-empty name and instructor but no course code,
used to separate the two variants. -/
def formNoCode : Form :=
  { courseName := some "Distributed Systems", instructor := some "Lamport" }

/-- Claim C1: save_courses leaves the store holding the prior sequence
with the new course appended as the last element, in both variants;
consequently the three sequential adds with codes C001, C002, C003 from
an empty store are listed back by course_catalog in exactly that order. -/
theorem save_courses_appends :
    (∀ (c : App.Course) (fs : App.FileContent) (cs : List App.Course),
        App.load_courses fs = .ok cs →
        App.save_courses c fs = .ok (.json (cs ++ [c]))) ∧
    (∀ (c : Temp.Course) (fs : Temp.FileContent) (cs : List Temp.Course),
        Temp.load_courses fs = .ok cs →
        Temp.save_courses c fs = .ok (.json (cs ++ [c]))) ∧
    catalog_after_three =
      .ok [App.mk_course form1, App.mk_course form2, App.mk_course form3] ∧
    (App.mk_course form1).code = "C001" ∧
    (App.mk_course form2).code = "C002" ∧
    (App.mk_course form3).code = "C003" := by
  refine ⟨?_, ?_, rfl, rfl, rfl, rfl⟩
  · intro c fs cs h
    unfold App.save_courses
    rw [h]
  · intro c fs cs h
    unfold Temp.save_courses
    rw [h]

/-- Witness for claim C1 at a concrete store. -/
theorem save_courses_appends_witness :
    App.save_courses courseC001 (.json []) = .ok (.json [courseC001]) := by
  simpa using save_courses_appends.1 courseC001 (.json []) [] rfl

/-- Claim C4: a missing backing file loads as the empty sequence rather
than failing, and the catalog page on it lists no courses, in both
variants. -/
theorem load_absent_is_empty :
    App.load_courses .absent = .ok [] ∧
    App.course_catalog .absent = .ok (.absent, []) ∧
    Temp.load_courses .absent = .ok [] ∧
    Temp.course_catalog .absent = .ok (.absent, []) :=
  ⟨rfl, rfl, rfl, rfl⟩

/-- Claim C6: on a file that exists but is not valid JSON, load_courses
fails with the uncaught JSON parse error; it never returns a list, empty
or otherwise. -/
theorem load_malformed_raises :
    App.load_courses .malformed = .error .jsonDecodeError ∧
    (App.load_courses .malformed).toOption = none :=
  ⟨rfl, rfl⟩

/-- Claim C7: two consecutive catalog reads with no intervening writes
return identical course sequences, the second starting from the state
the first left behind. -/
theorem idempotent_reads (fs fs1 fs2 : App.FileContent)
    (cs1 cs2 : List App.Course)
    (h1 : App.course_catalog fs = .ok (fs1, cs1))
    (h2 : App.course_catalog fs1 = .ok (fs2, cs2)) :
    cs1 = cs2 ∧ fs2 = fs1 := by
  cases fs with
  | absent =>
      simp [App.course_catalog, App.load_courses] at h1
      obtain ⟨rfl, rfl⟩ := h1
      simp [App.course_catalog, App.load_courses] at h2
      obtain ⟨rfl, rfl⟩ := h2
      exact ⟨rfl, rfl⟩
  | malformed =>
      simp [App.course_catalog, App.load_courses] at h1
  | json cs =>
      simp [App.course_catalog, App.load_courses] at h1
      obtain ⟨rfl, rfl⟩ := h1
      simp [App.course_catalog, App.load_courses] at h2
      obtain ⟨rfl, rfl⟩ := h2
      exact ⟨rfl, rfl⟩

/-- Witness for claim C7 at a concrete store. -/
theorem idempotent_reads_witness :
    [courseC001] = [courseC001] ∧
    App.FileContent.json [courseC001] = App.FileContent.json [courseC001] :=
  idempotent_reads (.json [courseC001]) (.json [courseC001])
    (.json [courseC001]) [courseC001] [courseC001] rfl rfl

/-- Claim C10: the read operations never write: whenever course_catalog
or course_details returns, the store state it returns is the one it was
given, in both variants. -/
theorem reads_do_not_write :
    (∀ (fs fs' : App.FileContent) (cs : List App.Course),
        App.course_catalog fs = .ok (fs', cs) → fs' = fs) ∧
    (∀ (code : String) (fs fs' : App.FileContent) (r : App.DetailsResult),
        App.course_details code fs = .ok (fs', r) → fs' = fs) ∧
    (∀ (fs fs' : Temp.FileContent) (cs : List Temp.Course),
        Temp.course_catalog fs = .ok (fs', cs) → fs' = fs) ∧
    (∀ (code : String) (fs fs' : Temp.FileContent) (r : Temp.DetailsResult),
        Temp.course_details code fs = .ok (fs', r) → fs' = fs) := by
  refine ⟨?_, ?_, ?_, ?_⟩
  · intro fs fs' cs h
    unfold App.course_catalog at h
    cases hl : App.load_courses fs <;> rw [hl] at h
    · cases h
    · simp at h
      exact h.1.symm
  · intro code fs fs' r h
    cases hl : App.load_courses fs with
    | error e => simp [App.course_details, hl] at h
    | ok courses =>
        cases hf : courses.find? (fun course => course.code == code) with
        | none =>
            simp [App.course_details, hl, hf] at h
            exact h.1.symm
        | some c =>
            simp [App.course_details, hl, hf] at h
            exact h.1.symm
  · intro fs fs' cs h
    unfold Temp.course_catalog at h
    cases hl : Temp.load_courses fs <;> rw [hl] at h
    · cases h
    · simp at h
      exact h.1.symm
  · intro code fs fs' r h
    cases hl : Temp.load_courses fs with
    | error e => simp [Temp.course_details, hl] at h
    | ok courses =>
        cases hf : courses.find? (fun course => course.code == code) with
        | none =>
            simp [Temp.course_details, hl, hf] at h
            exact h.1.symm
        | some c =>
            simp [Temp.course_details, hl, hf] at h
            exact h.1.symm

/-- Witness for claim C10 at a concrete store. -/
theorem reads_do_not_write_witness :
    App.FileContent.absent = App.FileContent.absent :=
  reads_do_not_write.1 .absent .absent [] rfl

/-- Claim C2: from any catalog state free of code C001, adding the form
with code C001, name Intro, instructor A. Smith succeeds, and a lookup of
C001 on the resulting store returns exactly that course, whose optional
fields are all absent. -/
theorem add_then_get_round_trip (fs : App.FileContent) (cs : List App.Course)
    (h : App.load_courses fs = .ok cs)
    (hfree : ∀ c ∈ cs, c.code ≠ "C001") :
    App.add_courses_post formC001 fs =
      .ok (.json (cs ++ [courseC001]), .added courseC001) ∧
    App.course_details "C001" (.json (cs ++ [courseC001])) =
      .ok (.json (cs ++ [courseC001]), .found courseC001) ∧
    courseC001.code = "C001" ∧ courseC001.name = "Intro" ∧
    courseC001.instructor = "A. Smith" ∧
    courseC001.semester = none ∧ courseC001.schedule = none ∧
    courseC001.classroom = none ∧ courseC001.prerequisites = none ∧
    courseC001.grading = none ∧ courseC001.Description = none := by
  have hnone : cs.find? (fun c => c.code == "C001") = none := by
    rw [List.find?_eq_none]
    intro c hc
    simpa using hfree c hc
  have hpos : (courseC001.code == "C001") = true := by decide
  refine ⟨?_, ?_, rfl, rfl, rfl, rfl, rfl, rfl, rfl, rfl, rfl⟩
  · unfold App.add_courses_post App.save_courses
    rw [h]
    rfl
  · simp [App.course_details, App.load_courses, List.find?_append, hnone, hpos]

/-- Witness for claim C2 at the empty store. -/
theorem add_then_get_round_trip_witness :
    App.add_courses_post formC001 .absent =
      .ok (.json ([] ++ [courseC001]), .added courseC001) :=
  (add_then_get_round_trip .absent [] rfl (by simp)).1

/-- Claim C3: when any required field is absent or empty, the add fails
carrying the labels of exactly the missing required fields and returns
the store unchanged; in particular a form supplying only a name is
rejected with the course code and instructor reported missing. -/
theorem validation_rejects_without_mutation (f : Form) (fs : App.FileContent)
    (h : (falsy f.course_code || falsy f.courseName || falsy f.instructor) = true) :
    App.add_courses_post f fs = .ok (fs, .validationError (App.missing_of f)) ∧
    (∀ s : String, s ∈ App.missing_of f ↔
      ((s = "Course Code" ∧ falsy f.course_code = true) ∨
       (s = "Course Name" ∧ falsy f.courseName = true) ∨
       (s = "Instructor" ∧ falsy f.instructor = true))) ∧
    App.add_courses_post { courseName := some "X" } fs =
      .ok (fs, .validationError ["Course Code", "Instructor"]) := by
  refine ⟨?_, ?_, rfl⟩
  · unfold App.add_courses_post
    rw [if_pos h]
  · intro s
    unfold App.missing_of
    cases hc : falsy f.course_code <;> cases hn : falsy f.courseName <;>
      cases hi : falsy f.instructor <;> simp

/-- Witness for claim C3 on a form supplying only a name. -/
theorem validation_rejects_without_mutation_witness :
    App.add_courses_post { courseName := some "X" } .absent =
      .ok (.absent, .validationError (App.missing_of { courseName := some "X" })) :=
  (validation_rejects_without_mutation { courseName := some "X" } .absent rfl).1

/-- Claim C5: course_details returns the first course in catalog order
whose code equals the input under exact string comparison, and reports
not-found exactly when no course in the catalog has that code. -/
theorem get_course_first_match (fs : App.FileContent) (cs : List App.Course)
    (code : String) (h : App.load_courses fs = .ok cs) :
    (∀ c : App.Course, App.course_details code fs = .ok (fs, .found c) →
      c.code = code ∧ ∃ pre post, cs = pre ++ c :: post ∧
        ∀ c' ∈ pre, c'.code ≠ code) ∧
    (App.course_details code fs = .ok (fs, .notFound) ↔
      ∀ c ∈ cs, c.code ≠ code) := by
  cases hf : cs.find? (fun c => c.code == code) with
  | none =>
      constructor
      · intro c hc
        simp [App.course_details, h, hf] at hc
      · constructor
        · intro _ c hc hcc
          have hb := List.find?_eq_none.mp hf c hc
          simp [hcc] at hb
        · intro _
          simp [App.course_details, h, hf]
  | some c0 =>
      obtain ⟨hp, pre, post, hcs, hpre⟩ := List.find?_eq_some.mp hf
      constructor
      · intro c hc
        simp [App.course_details, h, hf] at hc
        obtain rfl := hc
        refine ⟨by simpa using hp, pre, post, hcs, ?_⟩
        intro c' hc' hcc
        have hb := hpre c' hc'
        simp [hcc] at hb
      · constructor
        · intro hd
          simp [App.course_details, h, hf] at hd
        · intro hall
          exact absurd (by simpa using hp)
            (hall c0 (List.mem_of_find?_eq_some hf))

/-- Witness for claim C5 on a not-found lookup. -/
theorem get_course_first_match_witness :
    (App.course_details "ZZZ" (.json [courseC001]) =
      .ok (.json [courseC001], .notFound) ↔
    ∀ c ∈ [courseC001], c.code ≠ "ZZZ") :=
  (get_course_first_match (.json [courseC001]) [courseC001] "ZZZ" rfl).2

/-- Claim C8: code uniqueness is not enforced: adding a valid form whose
code X already occurs in the catalog succeeds and appends the duplicate,
leaving at least two entries with code X, and a subsequent lookup of X
still returns the first of the duplicates. -/
theorem duplicate_codes_allowed (fs : App.FileContent) (cs : List App.Course)
    (f : Form) (X : String) (c0 : App.Course)
    (h : App.load_courses fs = .ok cs)
    (hcode : f.course_code = some X)
    (hvn : falsy f.courseName = false)
    (hvi : falsy f.instructor = false)
    (hX : X ≠ "")
    (hfirst : cs.find? (fun c => c.code == X) = some c0) :
    App.add_courses_post f fs =
      .ok (.json (cs ++ [App.mk_course f]), .added (App.mk_course f)) ∧
    (App.mk_course f).code = X ∧
    2 ≤ (cs ++ [App.mk_course f]).countP (fun c => c.code == X) ∧
    App.course_details X (.json (cs ++ [App.mk_course f])) =
      .ok (.json (cs ++ [App.mk_course f]), .found c0) := by
  have hvc : falsy f.course_code = false := by
    rw [hcode]
    simpa [falsy] using hX
  refine ⟨?_, ?_, ?_, ?_⟩
  · simp [App.add_courses_post, App.save_courses, hvc, hvn, hvi, h]
  · simp [App.mk_course, hcode]
  · have hc0 : c0 ∈ cs := List.mem_of_find?_eq_some hfirst
    have hpc0 := List.find?_some hfirst
    have h1 : 0 < cs.countP (fun c => c.code == X) :=
      List.countP_pos_iff.mpr ⟨c0, hc0, hpc0⟩
    have h2 : (cs ++ [App.mk_course f]).countP (fun c => c.code == X) =
        cs.countP (fun c => c.code == X) + 1 := by
      rw [List.countP_append, List.countP_singleton,
        if_pos (by simp [App.mk_course, hcode])]
    omega
  · simp [App.course_details, App.load_courses, List.find?_append, hfirst]

/-- Witness for claim C8: adding formC001 on top of a catalog already
holding courseC001 and looking C001 up again. -/
theorem duplicate_codes_allowed_witness :
    App.course_details "C001" (.json ([courseC001] ++ [App.mk_course formC001])) =
      .ok (.json ([courseC001] ++ [App.mk_course formC001]), .found courseC001) :=
  (duplicate_codes_allowed (.json [courseC001]) [courseC001] formC001 "C001"
    courseC001 rfl rfl rfl rfl (by decide) (by decide)).2.2.2

/-- Claim C9: the two variants implement materially different add
contracts: on a form with a non-empty name and instructor but no code,
app.py rejects it reporting the course code missing, while
tempCodeRunnerFile.py accepts it and assigns the server-generated code
C{n+1:03d} for prior catalog length n, concretely C001 on an empty
catalog. -/
theorem variants_diverge :
    App.add_courses_post formNoCode .absent =
      .ok (.absent, .validationError ["Course Code"]) ∧
    (∀ (fs : Temp.FileContent) (cs : List Temp.Course),
        Temp.load_courses fs = .ok cs →
        Temp.add_courses_post formNoCode fs =
          .ok (.json (cs ++ [Temp.mk_course (Temp.gen_code cs.length) formNoCode]),
            .added (Temp.mk_course (Temp.gen_code cs.length) formNoCode))) ∧
    Temp.gen_code 0 = "C001" ∧
    Temp.add_courses_post formNoCode .absent =
      .ok (.json [Temp.mk_course "C001" formNoCode],
        .added (Temp.mk_course "C001" formNoCode)) := by
  refine ⟨rfl, ?_, rfl, rfl⟩
  intro fs cs h
  unfold Temp.add_courses_post Temp.save_courses
  rw [if_neg (by decide), h]

/-- Witness for claim C9 at the empty store of the second variant. -/
theorem variants_diverge_witness :
    Temp.add_courses_post formNoCode .absent =
      .ok (.json (([] : List Temp.Course) ++
          [Temp.mk_course (Temp.gen_code ([] : List Temp.Course).length) formNoCode]),
        .added (Temp.mk_course (Temp.gen_code ([] : List Temp.Course).length) formNoCode)) :=
  variants_diverge.2.1 .absent [] rfl
